import Mathlib

/-!
Verification development for `dashboard.py`, a Textual TUI dashboard that
polls the StartSynq enterprise synchronizers endpoint and renders the
returned records as cards.

The embedding models:
  * JSON values as an inductive type `Json`;
  * Python truthiness and `str()` on decoded JSON values;
  * `fetch_synchronizers` (including its exception-catching behaviour) as a
    total function from an abstract HTTP outcome to the returned pair plus
    the optional stderr diagnostic;
  * the sorting, row grouping and card rendering of the refresh path;
  * the countdown state machine driven by the 1-second tick and the
    end-of-refresh reset.
-/

namespace DashboardModel

/-- JSON values as decoded by Python's `json` module (numbers restricted to
integers, which suffices for every property considered here). -/
inductive Json where
  | null
  | bool (b : Bool)
  | num (n : Int)
  | str (s : String)
  | arr (elems : List Json)
  | obj (fields : List (String × Json))
deriving Repr, Inhabited

/-- Lookup of a key in the field list of a decoded JSON object.  Python's
`json` parser keeps the last occurrence of a duplicated key, so the lookup
returns the last binding. -/
def lookupLast (fields : List (String × Json)) (k : String) : Option Json :=
  match fields with
  | [] => none
  | (k', v) :: rest =>
    match lookupLast rest k with
    | some w => some w
    | none => if k' = k then some v else none

/-- Python truthiness of a decoded JSON value (`bool(x)`). -/
def truthy : Json → Bool
  | .null => false
  | .bool b => b
  | .num n => n != 0
  | .str s => s != ""
  | .arr xs => !xs.isEmpty
  | .obj fs => !fs.isEmpty

/-- The Python type name of a decoded JSON value, as it appears in
`AttributeError` messages. -/
def pyTypeName : Json → String
  | .null => "NoneType"
  | .bool _ => "bool"
  | .num _ => "int"
  | .str _ => "str"
  | .arr _ => "list"
  | .obj _ => "dict"

/-- A single-quote character as a string (used by Python `repr`). -/
def sq : String := (Char.ofNat 39).toString

mutual

/-- Python `repr()` of a decoded JSON value (string escaping omitted). -/
def pyRepr : Json → String
  | .null => "None"
  | .bool true => "True"
  | .bool false => "False"
  | .num n => toString n
  | .str s => sq ++ s ++ sq
  | .arr xs => "[" ++ String.intercalate ", " (pyReprList xs) ++ "]"
  | .obj fs => "\x7b" ++ String.intercalate ", " (pyReprObj fs) ++ "\x7d"

/-- `repr` of each element of a Python list. -/
def pyReprList : List Json → List String
  | [] => []
  | x :: xs => pyRepr x :: pyReprList xs

/-- `repr` of each `key: value` entry of a Python dict. -/
def pyReprObj : List (String × Json) → List String
  | [] => []
  | (k, v) :: fs => (sq ++ k ++ sq ++ ": " ++ pyRepr v) :: pyReprObj fs

end

/-- Python `str()` of a decoded JSON value: the string itself for strings,
`repr`-like rendering otherwise. -/
def pyStr : Json → String
  | .str s => s
  | .null => "None"
  | .bool true => "True"
  | .bool false => "False"
  | .num n => toString n
  | .arr xs => pyRepr (.arr xs)
  | .obj fs => pyRepr (.obj fs)

-- ───────────────────────────────────────────────────────────────────────────
-- Module-level constants of dashboard.py
-- ───────────────────────────────────────────────────────────────────────────

def API_URL : String := "https://startsynqing.com/api/synq-keys/enterprise/synchronizers"

def REFRESH_EVERY : Int := 60

def APP_TITLE : String := "Synchronizers Dashboard"

-- ───────────────────────────────────────────────────────────────────────────
-- fetch_synchronizers
-- ───────────────────────────────────────────────────────────────────────────

/-- Abstract outcome of `client.get(API_URL, ...)`: either a transport-level
exception (connect error, timeout, ...) with its Python exception class name
and message, or an HTTP response with a status code and a body that either
parses as JSON (`some j`) or is malformed (`none`). -/
inductive HttpResult where
  | transportError (kind msg : String)
  | response (status : Nat) (body : Option Json)

/-- What `fetch_synchronizers` returns, together with the diagnostic line it
printed to stderr (if any). -/
structure FetchOutcome where
  syncs : Json
  wallet : Json
  log : Option String
deriving Repr

/-- Message of the `HTTPStatusError` raised by `resp.raise_for_status()`
for a status outside the 2xx success range. -/
def statusErrorMsg (status : Nat) : String :=
  "HTTP status " ++ toString status ++ " for url " ++ API_URL

/-- Message of the `AttributeError` raised by calling `.get` on a non-dict
Python value. -/
def noGetAttrMsg (v : Json) : String :=
  sq ++ pyTypeName v ++ sq ++ " object has no attribute " ++ sq ++ "get" ++ sq

/-- The body of the `try` block of `fetch_synchronizers`.
`Except (kind, msg)` models a raised exception caught by the handler;
`.ok (some (syncs, wallet))` models the early `return` inside the
`if data.get("success"):` branch; `.ok none` models falling through that
branch (falsy `success`) without raising. -/
def fetchTryBody (r : HttpResult) : Except (String × String) (Option (Json × Json)) :=
  match r with
  | .transportError kind msg => .error (kind, msg)
  | .response status body =>
    -- resp.raise_for_status(): httpx raises for any status outside 2xx
    if 200 ≤ status ∧ status ≤ 299 then
      match body with
      | none => .error ("JSONDecodeError", "Expecting value")
      | some data =>
        match data with
        | .obj fields =>
          -- data.get("success")
          if truthy ((lookupLast fields "success").getD .null) then
            -- data.get("synchronizers", [])
            let syncs := (lookupLast fields "synchronizers").getD (.arr [])
            -- data.get("owner", {}).get("walletAddress")
            match (lookupLast fields "owner").getD (.obj []) with
            | .obj ofs => .ok (some (syncs, (lookupLast ofs "walletAddress").getD .null))
            | other => .error ("AttributeError", noGetAttrMsg other)
          else
            .ok none
        | other => .error ("AttributeError", noGetAttrMsg other)
    else
      .error ("HTTPStatusError", statusErrorMsg status)

/-- `fetch_synchronizers`: runs the `try` body; a raised exception is caught,
logged as `[fetch] {kind}: {msg}` on stderr, and the function returns
`([], None)`; a falsy `success` also falls through to `return [], None`
but logs nothing. -/
def fetch_synchronizers (r : HttpResult) : FetchOutcome :=
  match fetchTryBody r with
  | .ok (some (syncs, wallet)) => { syncs := syncs, wallet := wallet, log := none }
  | .ok none => { syncs := .arr [], wallet := .null, log := none }
  | .error (kind, msg) =>
    { syncs := .arr [], wallet := .null
      log := some ("[fetch] " ++ kind ++ ": " ++ msg) }

-- ───────────────────────────────────────────────────────────────────────────
-- SynchronizerWidget
-- ───────────────────────────────────────────────────────────────────────────

/-- `SynchronizerWidget.render`: builds a two-column grid with one row per
field in `("id", "key", "name", "isEnabled")`; the label carries rich markup
`[bold]{field}[/]` and the value is `str(self.data.get(field, "—"))`.
The widget's data is the record's dict (its field list here). -/
def SynchronizerWidget.render (data : List (String × Json)) : List (String × String) :=
  ["id", "key", "name", "isEnabled"].map fun field =>
    ("[bold]" ++ field ++ "[/]", pyStr ((lookupLast data field).getD (.str "—")))

-- ───────────────────────────────────────────────────────────────────────────
-- Sorting in Dashboard.refresh_widgets
-- ───────────────────────────────────────────────────────────────────────────

/-- The sort key `lambda s: s.get("name", "")` of `refresh_widgets`, on the
domain where Python evaluates it without raising and where the resulting keys
are comparable strings: records that are dicts whose `name`, if present, is a
string.  (`nameOk` below delimits that domain.) -/
def nameKey (r : Json) : String :=
  match r with
  | .obj fs =>
    match lookupLast fs "name" with
    | some (.str s) => s
    | _ => ""
  | _ => ""

/-- Domain predicate for the sort: the record is a dict (else `s.get`
raises `AttributeError`) and its `name` field, when present, is a string
(else the key comparison can raise `TypeError`).  This under-approximates
Python slightly: a list whose records all carry keys of one and the same
non-string type would also sort without raising; no property here needs
that case. -/
def nameOk (r : Json) : Bool :=
  match r with
  | .obj fs =>
    match lookupLast fs "name" with
    | some (.str _) => true
    | none => true
    | _ => false
  | _ => false

/-- Boolean comparison underlying `sorted(syncs, key=lambda s: s.get("name", ""))`. -/
def nameLe (a b : Json) : Bool := decide (nameKey a ≤ nameKey b)

/-- `sorted(syncs, key=lambda s: s.get("name", ""))`: Python's sort is an
ascending stable sort by the key, i.e. a stable merge sort under `nameLe`. -/
def sortSyncs (syncs : List Json) : List Json := syncs.mergeSort nameLe

-- ───────────────────────────────────────────────────────────────────────────
-- Dashboard._populate_sync_rows
-- ───────────────────────────────────────────────────────────────────────────

/-- `await row.mount(widget)` under the `if row:` guard: appends the record's
widget to the most recently created row; when no row exists yet the widget is
not mounted (unreachable from the real loop, where index 0 creates a row). -/
def pushLast (rows : List (List Json)) (s : Json) : List (List Json) :=
  if rows.isEmpty then [] else rows.dropLast ++ [(rows.getLast?.getD []) ++ [s]]

/-- One iteration of the `for idx, sync in enumerate(syncs):` loop body:
on `idx % 3 == 0` a fresh empty row is mounted on the body, then the
widget is mounted on the current row. -/
def populateStep (rows : List (List Json)) (p : Nat × Json) : List (List Json) :=
  pushLast (if p.1 % 3 == 0 then rows ++ [[]] else rows) p.2

/-- `Dashboard._populate_sync_rows`: runs the enumerate loop starting from an
empty body, returning the list of rows, each row the list of its card data. -/
def _populate_sync_rows (syncs : List Json) : List (List Json) :=
  syncs.enum.foldl populateStep []

/-- Closed-form characterisation target: consecutive chunks of three. -/
def chunks3 (l : List Json) : List (List Json) :=
  match l with
  | [] => []
  | a :: rest => (a :: rest.take 2) :: chunks3 (rest.drop 2)
termination_by l.length
decreasing_by simp; omega

-- ───────────────────────────────────────────────────────────────────────────
-- Dashboard.refresh_widgets and the display state
-- ───────────────────────────────────────────────────────────────────────────

/-- The visible result of a refresh: the body's rows of synchronizer cards
and the header's `sub_title` (the value assigned by
`self.header.sub_title = wallet or ""`). -/
structure Display where
  rows : List (List Json)
  sub_title : Json
deriving Repr

/-- Number of cards shown on a display. -/
def cardCount (d : Display) : Nat := (d.rows.map List.length).sum

/-- `Dashboard.refresh_widgets` acting on the previous display: fetch, sort by
name, update the header wallet, clear the body, repopulate in rows of up to
three.  Returns `none` when Python would raise inside `sorted` / the key
function, i.e. when the fetched `synchronizers` value is not a list of
records in the sort's domain (see `nameOk`). -/
def Dashboard.refresh_widgets (prev : Display) (r : HttpResult) : Option Display :=
  let f := fetch_synchronizers r
  match f.syncs with
  | .arr xs =>
    if xs.all nameOk then
      let sorted := sortSyncs xs
      let cleared : Display := { prev with rows := [] }
      some { cleared with
             rows := cleared.rows ++ _populate_sync_rows sorted
             sub_title := if truthy f.wallet then f.wallet else .str "" }
    else none
  | _ => none

-- ───────────────────────────────────────────────────────────────────────────
-- Countdown timer state machine
-- ───────────────────────────────────────────────────────────────────────────

/-- Python `int()` applied to a real (float) value: truncation toward zero. -/
def pyInt (q : ℚ) : Int := if 0 ≤ q then ⌊q⌋ else ⌈q⌉

/-- The countdown-relevant state: `Dashboard.next_refresh_epoch` and the
footer's `remaining` reactive. -/
structure TimerState where
  next_refresh_epoch : ℚ
  remaining : Int
deriving Repr

/-- State set up by `Dashboard.__init__` (at wall-clock time `t0`) and
`on_mount` (which sets the countdown to `REFRESH_EVERY`; the `FooterBar`
reactive also defaults to `REFRESH_EVERY`). -/
def initTimerState (t0 : ℚ) : TimerState :=
  { next_refresh_epoch := t0 + (REFRESH_EVERY : ℚ), remaining := REFRESH_EVERY }

/-- The two countdown-relevant events, tagged with the wall-clock time at
which they run: a 1-second tick, and the completion of a refresh (the last
two lines of `refresh_widgets`). -/
inductive TimerEvent where
  | tick (t : ℚ)
  | refreshDone (t : ℚ)

/-- Wall-clock time of an event. -/
def eventTime : TimerEvent → ℚ
  | .tick t => t
  | .refreshDone t => t

/-- Effect of one event on the countdown state.
`_tick` runs `remaining = max(0, int(self.next_refresh_epoch - time.time()))`
and writes it to the footer; the tail of `refresh_widgets` runs
`self.next_refresh_epoch = time.time() + REFRESH_EVERY` and resets the
footer countdown to `REFRESH_EVERY`. -/
def timerStep (s : TimerState) (e : TimerEvent) : TimerState :=
  match e with
  | .tick t => { s with remaining := max 0 (pyInt (s.next_refresh_epoch - t)) }
  | .refreshDone t =>
    { next_refresh_epoch := t + (REFRESH_EVERY : ℚ), remaining := REFRESH_EVERY }

/-- A list of events is chronological from time `t`: event times are at least
`t` and non-decreasing along the list. -/
def chronological (t : ℚ) : List TimerEvent → Bool
  | [] => true
  | e :: es => decide (t ≤ eventTime e) && chronological (eventTime e) es

/-- Running the dashboard's timers from startup time `t0` through a sequence
of events. -/
def runTimer (t0 : ℚ) (es : List TimerEvent) : TimerState :=
  es.foldl timerStep (initTimerState t0)

-- ───────────────────────────────────────────────────────────────────────────
-- Input-level characterisations of the fetch outcomes
-- ───────────────────────────────────────────────────────────────────────────

/-- The exact set of fetch inputs on which `fetch_synchronizers` degrades to
`([], None)`: a transport error, a status outside 2xx, a malformed body, a
body that is not a JSON object, a falsy `success` field, or a truthy
`success` with an `owner` value that is not an object. -/
def degradesInput (r : HttpResult) : Bool :=
  match r with
  | .transportError _ _ => true
  | .response status body =>
    if 200 ≤ status ∧ status ≤ 299 then
      match body with
      | none => true
      | some (.obj fields) =>
        if truthy ((lookupLast fields "success").getD .null) then
          match (lookupLast fields "owner").getD (.obj []) with
          | .obj _ => false
          | _ => true
        else true
      | some _ => true
    else true

/-- The spec's four-class failure taxonomy (§7): (a) transport/network error,
(b) non-success HTTP status, (c) malformed/unexpected JSON (the body fails to
parse or is not a JSON object), (d) application-level failure flag (a falsy
`success`, in particular `success: false`). -/
def failureClass (r : HttpResult) : Bool :=
  match r with
  | .transportError _ _ => true
  | .response status body =>
    if 200 ≤ status ∧ status ≤ 299 then
      match body with
      | none => true
      | some (.obj fields) => !truthy ((lookupLast fields "success").getD .null)
      | some _ => true
    else true

/-- Modelled from the spec (§6 "Expected response JSON shape"): the response
envelope `{ "success": bool, "synchronizers": [ {..}, ... ],
"owner": { "walletAddress": string } }`.  This definition follows the spec's
words (it is what "any deviation" is measured against), not the code. -/
def specEnvelopeShape (j : Json) : Bool :=
  match j with
  | .obj fields =>
    (match lookupLast fields "success" with
     | some (.bool _) => true
     | _ => false) &&
    (match lookupLast fields "synchronizers" with
     | some (.arr xs) =>
       xs.all fun r => match r with | .obj _ => true | _ => false
     | _ => false) &&
    (match lookupLast fields "owner" with
     | some (.obj ofs) =>
       (match lookupLast ofs "walletAddress" with
        | some (.str _) => true
        | _ => false)
     | _ => false)
  | _ => false

/-- Length of a JSON array (0 on non-arrays); observer used to compare
record sequences concretely. -/
def arrLength : Json → Nat
  | .arr xs => xs.length
  | _ => 0

/-- Whether a JSON value is an object. -/
def isObj : Json → Bool
  | .obj _ => true
  | _ => false

-- ═══════════════════════════════════════════════════════════════════════════
-- Theorems
-- ═══════════════════════════════════════════════════════════════════════════

/-- Helper: on every degrading input, `fetch_synchronizers` returns the empty
list and no wallet. -/
theorem fetch_degrade_aux (r : HttpResult) (h : degradesInput r = true) :
    (fetch_synchronizers r).syncs = Json.arr [] ∧
    (fetch_synchronizers r).wallet = Json.null := by
  cases r with
  | transportError kind msg => simp [fetch_synchronizers, fetchTryBody]
  | response status body =>
    simp only [degradesInput] at h
    simp only [fetch_synchronizers, fetchTryBody]
    by_cases hst : 200 ≤ status ∧ status ≤ 299
    · rw [if_pos hst] at h ⊢
      cases body with
      | none => simp
      | some data =>
        cases data with
        | obj fields =>
          dsimp only at h ⊢
          by_cases ht : truthy ((lookupLast fields "success").getD .null) = true
          · rw [if_pos ht] at h ⊢
            rcases how : (lookupLast fields "owner").getD (.obj []) with
              _ | b | n | s | xs | ofs <;> simp_all
          · rw [if_neg ht]
            simp
        | null => simp
        | bool b => simp
        | num n => simp
        | str s => simp
        | arr xs => simp
    · rw [if_neg hst]
      simp

/-- C1 (amended): `fetch_synchronizers` degrades to an empty record sequence
and no owner exactly on the inputs characterised by `degradesInput`: transport
error, non-2xx status, malformed body, non-object body, falsy `success`, or
truthy `success` with a present non-object `owner`; it never raises (it is a
total function).  JSON-shape deviations that leave `success` truthy and
`owner` an object or absent (a non-boolean truthy `success`, a non-array
`synchronizers`) are NOT degraded: the `synchronizers` value is returned
as-is. -/
theorem fetch_degrade_to_empty (r : HttpResult) (h : degradesInput r = true) :
    (fetch_synchronizers r).syncs = Json.arr [] ∧
    (fetch_synchronizers r).wallet = Json.null :=
  fetch_degrade_aux r h

/-- Witness for `fetch_degrade_to_empty` at a concrete degrading input
(HTTP 500 with a malformed body). -/
theorem fetch_degrade_to_empty_witness :
    degradesInput (.response 500 none) = true ∧
    ((fetch_synchronizers (.response 500 none)).syncs = Json.arr [] ∧
     (fetch_synchronizers (.response 500 none)).wallet = Json.null) :=
  ⟨by decide, fetch_degrade_to_empty (.response 500 none) (by decide)⟩

/-- C1 counterexample: the body
`{"success": "yes", "synchronizers": [{}]}` deviates from the spec's expected
envelope (its `success` is a string, not a boolean), yet `fetch_synchronizers`
returns the one-element `synchronizers` value rather than an empty record
sequence, because the code tests `data.get("success")` for truthiness only. -/
theorem fetch_shape_mismatch_not_degraded :
    specEnvelopeShape
      (Json.obj [("success", Json.str "yes"), ("synchronizers", Json.arr [Json.obj []])]) = false ∧
    (fetch_synchronizers (.response 200 (some
      (Json.obj [("success", Json.str "yes"), ("synchronizers", Json.arr [Json.obj []])])))).syncs
      = Json.arr [Json.obj []] ∧
    arrLength (fetch_synchronizers (.response 200 (some
      (Json.obj [("success", Json.str "yes"), ("synchronizers", Json.arr [Json.obj []])])))).syncs
      = 1 := by
  refine ⟨rfl, rfl, rfl⟩

/-- C2 (amended): on a 2xx response whose body is a JSON object, a `success`
field equal to boolean `false` makes the fetch return the empty list, no
owner, and no diagnostic; a `success` field equal to boolean `true` makes it
return the `synchronizers` value (defaulting to the empty array when absent)
and `owner.walletAddress` (defaulting to absent), provided the `owner` value
(defaulting to the empty object when absent) is an object — when `owner` is
present but not an object, the fetch instead degrades to the empty list and
no owner. -/
theorem fetch_success_flag (status : Nat) (fields : List (String × Json))
    (hst : 200 ≤ status ∧ status ≤ 299) :
    (lookupLast fields "success" = some (.bool false) →
      fetch_synchronizers (.response status (some (.obj fields))) =
        { syncs := .arr [], wallet := .null, log := none })
    ∧ (∀ ofs : List (String × Json),
        lookupLast fields "success" = some (.bool true) →
        (lookupLast fields "owner").getD (.obj []) = .obj ofs →
        fetch_synchronizers (.response status (some (.obj fields))) =
          { syncs := (lookupLast fields "synchronizers").getD (.arr [])
            wallet := (lookupLast ofs "walletAddress").getD .null
            log := none })
    ∧ (lookupLast fields "success" = some (.bool true) →
        isObj ((lookupLast fields "owner").getD (.obj [])) = false →
        (fetch_synchronizers (.response status (some (.obj fields)))).syncs = .arr [] ∧
        (fetch_synchronizers (.response status (some (.obj fields)))).wallet = .null) := by
  refine ⟨?_, ?_, ?_⟩
  · intro hs
    simp [fetch_synchronizers, fetchTryBody, hst, hs, truthy]
  · intro ofs hs how
    simp [fetch_synchronizers, fetchTryBody, hst, hs, truthy, how]
  · intro hs how
    rcases hov : (lookupLast fields "owner").getD (.obj []) with _ | b | n | s | xs | ofs <;>
      simp [fetch_synchronizers, fetchTryBody, hst, hs, truthy, hov] <;>
      simp [hov, isObj] at how

/-- Witness for `fetch_success_flag`: a concrete 2xx response with boolean
`success: true`, one synchronizer and an owner wallet. -/
theorem fetch_success_flag_witness :
    (200 ≤ 200 ∧ 200 ≤ 299) ∧
    lookupLast [("success", Json.bool true), ("synchronizers", Json.arr [Json.obj []]),
        ("owner", Json.obj [("walletAddress", Json.str "0xABC")])] "success"
      = some (Json.bool true) ∧
    fetch_synchronizers (.response 200 (some (.obj
        [("success", Json.bool true), ("synchronizers", Json.arr [Json.obj []]),
         ("owner", Json.obj [("walletAddress", Json.str "0xABC")])])))
      = { syncs := Json.arr [Json.obj []], wallet := Json.str "0xABC", log := none } :=
  ⟨by decide, rfl,
    (fetch_success_flag 200
        [("success", Json.bool true), ("synchronizers", Json.arr [Json.obj []]),
         ("owner", Json.obj [("walletAddress", Json.str "0xABC")])]
        (by decide)).2.1
      [("walletAddress", Json.str "0xABC")] rfl rfl⟩

/-- C2 counterexample: a 2xx JSON-object response with boolean
`success: true`, a one-element `synchronizers` array, and a string `owner`.
The claim says the fetch returns the `synchronizers` array, but the code
raises `AttributeError` on `data.get("owner", {}).get("walletAddress")`,
catches it, and returns the empty list and no owner instead. -/
theorem fetch_true_success_nonobj_owner :
    lookupLast [("success", Json.bool true),
        ("synchronizers", Json.arr [Json.obj [("name", Json.str "x")]]),
        ("owner", Json.str "w")] "success" = some (Json.bool true) ∧
    lookupLast [("success", Json.bool true),
        ("synchronizers", Json.arr [Json.obj [("name", Json.str "x")]]),
        ("owner", Json.str "w")] "synchronizers"
      = some (Json.arr [Json.obj [("name", Json.str "x")]]) ∧
    fetch_synchronizers (.response 200 (some (.obj
        [("success", Json.bool true),
         ("synchronizers", Json.arr [Json.obj [("name", Json.str "x")]]),
         ("owner", Json.str "w")])))
      = { syncs := Json.arr [], wallet := Json.null
          log := some ("[fetch] AttributeError: " ++ noGetAttrMsg (Json.str "w")) } ∧
    arrLength (fetch_synchronizers (.response 200 (some (.obj
        [("success", Json.bool true),
         ("synchronizers", Json.arr [Json.obj [("name", Json.str "x")]]),
         ("owner", Json.str "w")])))).syncs = 0 ∧
    arrLength (Json.arr [Json.obj [("name", Json.str "x")]]) = 1 := by
  refine ⟨rfl, rfl, rfl, rfl, rfl⟩

/-- C9 (amended): failure classes (a) transport/network error, (b) non-2xx
HTTP status and (c) malformed/unexpected JSON — a body that fails to parse,
or one that parses to a non-object — each log a `[fetch] {kind}: {message}`
diagnostic to stderr, but class (d) — the application-level failure flag
(falsy `success`, in particular `success: false`) — degrades silently and
logs nothing. -/
theorem fetch_logging (kind msg : String) (status : Nat) (body : Option Json)
    (fields : List (String × Json)) :
    ((fetch_synchronizers (.transportError kind msg)).log =
        some ("[fetch] " ++ kind ++ ": " ++ msg))
    ∧ (¬(200 ≤ status ∧ status ≤ 299) →
        (fetch_synchronizers (.response status body)).log =
          some ("[fetch] HTTPStatusError: " ++ statusErrorMsg status))
    ∧ ((200 ≤ status ∧ status ≤ 299) →
        (fetch_synchronizers (.response status none)).log =
          some ("[fetch] JSONDecodeError: Expecting value"))
    ∧ ((200 ≤ status ∧ status ≤ 299) →
        ∀ b : Json, isObj b = false →
        (fetch_synchronizers (.response status (some b))).log =
          some ("[fetch] AttributeError: " ++ noGetAttrMsg b))
    ∧ ((200 ≤ status ∧ status ≤ 299) →
        truthy ((lookupLast fields "success").getD .null) = false →
        (fetch_synchronizers (.response status (some (.obj fields)))).log = none) := by
  refine ⟨rfl, ?_, ?_, ?_, ?_⟩
  · intro hst
    simp [fetch_synchronizers, fetchTryBody, hst]
  · intro hst
    simp [fetch_synchronizers, fetchTryBody, hst]
  · intro hst b hb
    cases b with
    | obj fs => simp [isObj] at hb
    | null => simp [fetch_synchronizers, fetchTryBody, hst]
    | bool x => simp [fetch_synchronizers, fetchTryBody, hst]
    | num n => simp [fetch_synchronizers, fetchTryBody, hst]
    | str s => simp [fetch_synchronizers, fetchTryBody, hst]
    | arr xs => simp [fetch_synchronizers, fetchTryBody, hst]
  · intro hst ht
    simp [fetch_synchronizers, fetchTryBody, hst, ht]

/-- Witness for `fetch_logging` at concrete inputs for each failure class,
including a 2xx body that parses to a non-object (a top-level array). -/
theorem fetch_logging_witness :
    (fetch_synchronizers (.transportError "ConnectError" "boom")).log =
      some ("[fetch] " ++ "ConnectError" ++ ": " ++ "boom") ∧
    (fetch_synchronizers (.response 404 (some (Json.obj [])))).log =
      some ("[fetch] HTTPStatusError: " ++ statusErrorMsg 404) ∧
    (fetch_synchronizers (.response 200 none)).log =
      some "[fetch] JSONDecodeError: Expecting value" ∧
    (fetch_synchronizers (.response 200 (some (Json.arr [])))).log =
      some ("[fetch] AttributeError: " ++ noGetAttrMsg (Json.arr [])) ∧
    (fetch_synchronizers (.response 200 (some (Json.obj
        [("success", Json.bool false)])))).log = none :=
  ⟨(fetch_logging "ConnectError" "boom" 404 (some (Json.obj [])) []).1,
   (fetch_logging "ConnectError" "boom" 404 (some (Json.obj [])) []).2.1 (by decide),
   (fetch_logging "ConnectError" "boom" 200 none []).2.2.1 (by decide),
   (fetch_logging "ConnectError" "boom" 200 none []).2.2.2.1 (by decide)
     (Json.arr []) rfl,
   (fetch_logging "ConnectError" "boom" 200 none
      [("success", Json.bool false)]).2.2.2.2 (by decide) rfl⟩

/-- C9 counterexample: `{"success": false}` with HTTP 200 belongs to the
spec's failure taxonomy (class (d)), yet `fetch_synchronizers` logs no
diagnostic for it: the falsy-`success` path falls through to
`return [], None` without entering the `except` handler. -/
theorem fetch_success_false_not_logged :
    failureClass (.response 200 (some (Json.obj [("success", Json.bool false)]))) = true ∧
    (fetch_synchronizers (.response 200 (some (Json.obj
        [("success", Json.bool false)])))).log = none := by
  refine ⟨by decide, rfl⟩

-- ───────────────────────────────────────────────────────────────────────────
-- Sorting lemmas
-- ───────────────────────────────────────────────────────────────────────────

/-- The name comparison is transitive. -/
theorem nameLe_trans (a b c : Json) (hab : nameLe a b = true) (hbc : nameLe b c = true) :
    nameLe a c = true := by
  simp only [nameLe, decide_eq_true_eq] at *
  exact le_trans hab hbc

/-- The name comparison is total. -/
theorem nameLe_total (a b : Json) : (nameLe a b || nameLe b a) = true := by
  simp only [nameLe, Bool.or_eq_true, decide_eq_true_eq]
  exact le_total _ _

/-- Stability of the sort, as preservation of each name class: filtering the
sorted list to the records of one name gives the same list (same elements,
same order) as filtering the input. -/
theorem sortSyncs_filter (l : List Json) (k : String) :
    (sortSyncs l).filter (fun r => nameKey r == k)
      = l.filter (fun r => nameKey r == k) := by
  have hpair : (l.filter (fun r => nameKey r == k)).Pairwise (fun a b => nameLe a b = true) := by
    apply List.pairwise_of_forall_mem_list
    intro a ha b hb
    have ha' := (List.mem_filter.mp ha).2
    have hb' := (List.mem_filter.mp hb).2
    simp only [beq_iff_eq] at ha' hb'
    simp [nameLe, ha', hb']
  have hsub : (l.filter (fun r => nameKey r == k)).Sublist (sortSyncs l) :=
    List.sublist_mergeSort nameLe_trans nameLe_total hpair (List.filter_sublist l)
  have hself : (l.filter (fun r => nameKey r == k)).filter (fun r => nameKey r == k)
      = l.filter (fun r => nameKey r == k) := by
    apply List.filter_eq_self.mpr
    intro a ha
    exact (List.mem_filter.mp ha).2
  have hsub2 : (l.filter (fun r => nameKey r == k)).Sublist
      ((sortSyncs l).filter (fun r => nameKey r == k)) := by
    have := List.Sublist.filter (fun r => nameKey r == k) hsub
    rwa [hself] at this
  have hperm : ((sortSyncs l).filter (fun r => nameKey r == k)).Perm
      (l.filter (fun r => nameKey r == k)) :=
    List.Perm.filter _ (List.mergeSort_perm l nameLe)
  exact (hsub2.eq_of_length hperm.length_eq.symm).symm

-- ───────────────────────────────────────────────────────────────────────────
-- Row-layout lemmas
-- ───────────────────────────────────────────────────────────────────────────

/-- Mounting a widget on the latest row appends it there. -/
theorem pushLast_concat (rows : List (List Json)) (row : List Json) (s : Json) :
    pushLast (rows ++ [row]) s = rows ++ [row ++ [s]] := by
  simp [pushLast, List.dropLast_concat, List.getLast?_concat]

/-- Loop body at an index that is a multiple of 3: a fresh row is created and
the widget lands in it. -/
theorem populateStep_newRow (rows : List (List Json)) (a : Json) (i : Nat)
    (h : i % 3 = 0) : populateStep rows (i, a) = rows ++ [[a]] := by
  have hb : (i % 3 == 0) = true := by simp [h]
  have := pushLast_concat rows [] a
  simp only [populateStep, hb, if_true]
  simpa using this

/-- Loop body at an index that is not a multiple of 3: the widget lands in
the latest row. -/
theorem populateStep_cont (rows : List (List Json)) (row : List Json) (a : Json)
    (i : Nat) (h : i % 3 ≠ 0) :
    populateStep (rows ++ [row]) (i, a) = rows ++ [row ++ [a]] := by
  have hb : (i % 3 == 0) = false := by simp [h]
  simp only [populateStep, hb, Bool.false_eq_true, if_false]
  exact pushLast_concat rows row a

/-- The enumerate loop of `_populate_sync_rows`, started at any index that is
a multiple of 3 with any already-built rows, appends the chunks of three. -/
theorem populate_from (l : List Json) :
    ∀ (m : Nat) (rows : List (List Json)),
      (List.enumFrom (3 * m) l).foldl populateStep rows = rows ++ chunks3 l := by
  induction l using chunks3.induct with
  | case1 => intro m rows; simp [chunks3]
  | case2 a rest ih =>
    intro m rows
    rcases rest with _ | ⟨b, rest1⟩
    · rw [chunks3]
      simp only [List.enumFrom_cons, List.foldl_cons, List.foldl_nil, List.enumFrom_nil]
      rw [populateStep_newRow rows a (3 * m) (by omega)]
      simp [chunks3]
    · rcases rest1 with _ | ⟨c, rest2⟩
      · rw [chunks3]
        simp only [List.enumFrom_cons, List.foldl_cons, List.foldl_nil, List.enumFrom_nil]
        rw [populateStep_newRow rows a (3 * m) (by omega),
          populateStep_cont rows [a] b (3 * m + 1) (by omega)]
        simp [chunks3]
      · rw [chunks3]
        simp only [List.drop_succ_cons, List.drop_zero] at ih
        simp only [List.enumFrom_cons, List.foldl_cons]
        rw [populateStep_newRow rows a (3 * m) (by omega),
          populateStep_cont rows [a] b (3 * m + 1) (by omega)]
        simp only [List.singleton_append]
        rw [populateStep_cont rows [a, b] c (3 * m + 1 + 1) (by omega)]
        simp only [show [a, b] ++ [c] = [a, b, c] from rfl]
        rw [show 3 * m + 1 + 1 + 1 = 3 * (m + 1) by omega,
          ih (m + 1) (rows ++ [[a, b, c]])]
        simp

/-- `_populate_sync_rows` groups the records into consecutive chunks of
three. -/
theorem populate_eq_chunks3 (l : List Json) : _populate_sync_rows l = chunks3 l := by
  have h := populate_from l 0 []
  simpa [_populate_sync_rows, List.enum] using h

/-- Flattening the chunks gives back the records in order. -/
theorem chunks3_flatten (l : List Json) : (chunks3 l).flatten = l := by
  induction l using chunks3.induct with
  | case1 => simp [chunks3]
  | case2 a rest ih =>
    rw [chunks3]
    simp only [List.flatten_cons, ih]
    simp [List.take_append_drop]

/-- Every chunk holds at most three records. -/
theorem chunks3_row_len (l : List Json) : ∀ row ∈ chunks3 l, row.length ≤ 3 := by
  induction l using chunks3.induct with
  | case1 => simp [chunks3]
  | case2 a rest ih =>
    rw [chunks3]
    intro row hrow
    rcases List.mem_cons.mp hrow with rfl | h
    · simp only [List.length_cons, List.length_take]
      omega
    · exact ih row h

/-- The number of chunks is `⌈N/3⌉`. -/
theorem chunks3_length (l : List Json) : (chunks3 l).length = (l.length + 2) / 3 := by
  induction l using chunks3.induct with
  | case1 => simp [chunks3]
  | case2 a rest ih =>
    rw [chunks3]
    simp only [List.length_cons, ih, List.length_drop]
    omega

/-- C4 (confirmed): rendering N records produces exactly one card per record
(the flattened grid is the record list itself, so the card count is N), rows
hold at most 3 cards, and there are `ceil(N/3) = (N+2)/3` rows. -/
theorem populate_rows_shape (l : List Json) :
    (_populate_sync_rows l).flatten = l
    ∧ ((_populate_sync_rows l).map List.length).sum = l.length
    ∧ (∀ row ∈ _populate_sync_rows l, row.length ≤ 3)
    ∧ (_populate_sync_rows l).length = (l.length + 2) / 3 := by
  rw [populate_eq_chunks3]
  refine ⟨chunks3_flatten l, ?_, chunks3_row_len l, chunks3_length l⟩
  rw [← List.length_flatten, chunks3_flatten]

/-- C3 (confirmed): `refresh_widgets` displays the records sorted by their
`name` ascending lexicographically (the displayed sequence is
`sortSyncs l`, pairwise non-decreasing in `nameKey`), the sorted list is a
permutation of the input, the sort is stable (every name class keeps its
original relative order), and a record with no `name` field sorts under the
empty-string key.  The hypothesis confines the statement to the domain on
which Python's `sorted` call is defined (dict records with string-or-absent
names). -/
theorem refresh_sorts_records (l : List Json) (h : ∀ r ∈ l, nameOk r = true) :
    List.Pairwise (fun a b => nameKey a ≤ nameKey b) (sortSyncs l)
    ∧ (sortSyncs l).Perm l
    ∧ (∀ k : String, (sortSyncs l).filter (fun r => nameKey r == k)
        = l.filter (fun r => nameKey r == k))
    ∧ (_populate_sync_rows (sortSyncs l)).flatten = sortSyncs l
    ∧ (∀ fs : List (String × Json), lookupLast fs "name" = none →
        nameKey (.obj fs) = "") := by
  refine ⟨?_, List.mergeSort_perm l nameLe, sortSyncs_filter l,
    (populate_rows_shape (sortSyncs l)).1, ?_⟩
  · have hs := List.sorted_mergeSort nameLe_trans nameLe_total l
    exact hs.imp fun hab => by simpa [nameLe] using hab
  · intro fs hfs
    simp [nameKey, hfs]

/-- Witness for `refresh_sorts_records` on a concrete list with a missing
name, a duplicate name and unsorted input order. -/
theorem refresh_sorts_records_witness :
    (∀ r ∈ [Json.obj [("name", Json.str "b")], Json.obj [("name", Json.str "a")],
        Json.obj [], Json.obj [("name", Json.str "a"), ("id", Json.num 1)]],
      nameOk r = true) ∧
    (List.Pairwise (fun a b => nameKey a ≤ nameKey b)
        (sortSyncs [Json.obj [("name", Json.str "b")], Json.obj [("name", Json.str "a")],
          Json.obj [], Json.obj [("name", Json.str "a"), ("id", Json.num 1)]])
      ∧ (sortSyncs [Json.obj [("name", Json.str "b")], Json.obj [("name", Json.str "a")],
          Json.obj [], Json.obj [("name", Json.str "a"), ("id", Json.num 1)]]).Perm
          [Json.obj [("name", Json.str "b")], Json.obj [("name", Json.str "a")],
           Json.obj [], Json.obj [("name", Json.str "a"), ("id", Json.num 1)]]
      ∧ (∀ k : String,
          (sortSyncs [Json.obj [("name", Json.str "b")], Json.obj [("name", Json.str "a")],
            Json.obj [], Json.obj [("name", Json.str "a"), ("id", Json.num 1)]]).filter
              (fun r => nameKey r == k)
          = [Json.obj [("name", Json.str "b")], Json.obj [("name", Json.str "a")],
             Json.obj [], Json.obj [("name", Json.str "a"), ("id", Json.num 1)]].filter
              (fun r => nameKey r == k))
      ∧ (_populate_sync_rows (sortSyncs [Json.obj [("name", Json.str "b")],
          Json.obj [("name", Json.str "a")], Json.obj [],
          Json.obj [("name", Json.str "a"), ("id", Json.num 1)]])).flatten
        = sortSyncs [Json.obj [("name", Json.str "b")], Json.obj [("name", Json.str "a")],
            Json.obj [], Json.obj [("name", Json.str "a"), ("id", Json.num 1)]]
      ∧ (∀ fs : List (String × Json), lookupLast fs "name" = none →
          nameKey (.obj fs) = "")) :=
  ⟨by decide,
   refresh_sorts_records
     [Json.obj [("name", Json.str "b")], Json.obj [("name", Json.str "a")],
      Json.obj [], Json.obj [("name", Json.str "a"), ("id", Json.num 1)]]
     (by decide)⟩

/-- C5 (confirmed): a card renders exactly the four labelled fields `id`,
`key`, `name`, `isEnabled` in order, and each of the four that is missing
from the record's dict is rendered with the em-dash placeholder value
(rendering is a total function, so a missing field cannot fail). -/
theorem render_missing_fields_placeholder (data : List (String × Json))
    (f : String) (hf : f ∈ ["id", "key", "name", "isEnabled"])
    (hmissing : lookupLast data f = none) :
    ((SynchronizerWidget.render data).map Prod.fst
      = ["[bold]id[/]", "[bold]key[/]", "[bold]name[/]", "[bold]isEnabled[/]"])
    ∧ ("[bold]" ++ f ++ "[/]", "—") ∈ SynchronizerWidget.render data := by
  constructor
  · simp [SynchronizerWidget.render]
  · have : ("[bold]" ++ f ++ "[/]", pyStr ((lookupLast data f).getD (.str "—")))
        ∈ SynchronizerWidget.render data :=
      List.mem_map_of_mem _ hf
    rwa [hmissing] at this

/-- Witness for `render_missing_fields_placeholder`: a record with only an
`id` field renders `name` as the placeholder. -/
theorem render_missing_fields_placeholder_witness :
    ("name" ∈ ["id", "key", "name", "isEnabled"] ∧
      lookupLast [("id", Json.str "a")] "name" = none) ∧
    (((SynchronizerWidget.render [("id", Json.str "a")]).map Prod.fst
        = ["[bold]id[/]", "[bold]key[/]", "[bold]name[/]", "[bold]isEnabled[/]"])
      ∧ ("[bold]" ++ "name" ++ "[/]", "—")
          ∈ SynchronizerWidget.render [("id", Json.str "a")]) :=
  ⟨⟨by decide, rfl⟩,
   render_missing_fields_placeholder [("id", Json.str "a")] "name" (by decide) rfl⟩

-- ───────────────────────────────────────────────────────────────────────────
-- Refresh-cycle lemmas
-- ───────────────────────────────────────────────────────────────────────────

/-- Every input in the spec's four-class failure taxonomy is a degrading
input of the fetch. -/
theorem failureClass_degrades (r : HttpResult) (h : failureClass r = true) :
    degradesInput r = true := by
  cases r with
  | transportError kind msg => rfl
  | response status body =>
    simp only [failureClass] at h
    simp only [degradesInput]
    by_cases hst : 200 ≤ status ∧ status ≤ 299
    · rw [if_pos hst] at h ⊢
      cases body with
      | none => rfl
      | some data =>
        cases data with
        | obj fields =>
          dsimp only at h ⊢
          rw [Bool.not_eq_true'] at h
          simp [h]
        | null => rfl
        | bool b => rfl
        | num n => rfl
        | str s => rfl
        | arr xs => rfl
    · rw [if_neg hst]

/-- Helper: a refresh whose fetch lands in the failure taxonomy rebuilds the
display as zero cards with an empty subtitle, whatever was shown before. -/
theorem refresh_degrade_helper (prev : Display) (r : HttpResult)
    (h : failureClass r = true) :
    Dashboard.refresh_widgets prev r = some { rows := [], sub_title := Json.str "" } := by
  obtain ⟨hs, hw⟩ := fetch_degrade_aux r (failureClass_degrades r h)
  simp [Dashboard.refresh_widgets, hs, hw, sortSyncs, _populate_sync_rows,
    List.mergeSort_nil, truthy, List.enum]

/-- C7 (confirmed): after a refresh cycle whose fetch degraded (transport
error or timeout, non-2xx status, malformed or non-object JSON, or a falsy
`success` flag such as `success: false`), the display shows zero cards and
the owner subtitle is the empty string. -/
theorem refresh_degraded_shows_empty (prev : Display) (r : HttpResult)
    (h : failureClass r = true) :
    Dashboard.refresh_widgets prev r = some { rows := [], sub_title := Json.str "" }
    ∧ (Dashboard.refresh_widgets prev r).elim 0 cardCount = 0 := by
  refine ⟨refresh_degrade_helper prev r h, ?_⟩
  rw [refresh_degrade_helper prev r h]
  rfl

/-- Witness for `refresh_degraded_shows_empty`: a `success: false` response
arriving while a non-empty display is shown. -/
theorem refresh_degraded_shows_empty_witness :
    failureClass (.response 200 (some (Json.obj [("success", Json.bool false)]))) = true ∧
    (Dashboard.refresh_widgets
        { rows := [[Json.obj [("name", Json.str "A")]]], sub_title := Json.str "0xA" }
        (.response 200 (some (Json.obj [("success", Json.bool false)])))
      = some { rows := [], sub_title := Json.str "" }
    ∧ (Dashboard.refresh_widgets
        { rows := [[Json.obj [("name", Json.str "A")]]], sub_title := Json.str "0xA" }
        (.response 200 (some (Json.obj [("success", Json.bool false)])))).elim 0 cardCount
      = 0) :=
  ⟨by decide,
   refresh_degraded_shows_empty
     { rows := [[Json.obj [("name", Json.str "A")]]], sub_title := Json.str "0xA" }
     (.response 200 (some (Json.obj [("success", Json.bool false)])))
     (by decide)⟩

/-- C8 counterexample: with a one-card screen showing, a failed fetch
(a connect timeout) makes the next refresh display zero cards and an empty
subtitle — the previous screen is NOT kept. -/
theorem refresh_failure_wipes_previous_screen :
    Dashboard.refresh_widgets
        { rows := [[Json.obj [("name", Json.str "A")]]], sub_title := Json.str "0xA" }
        (.transportError "ConnectTimeout" "timed out")
      = some { rows := [], sub_title := Json.str "" } ∧
    cardCount { rows := [[Json.obj [("name", Json.str "A")]]], sub_title := Json.str "0xA" } = 1 ∧
    cardCount { rows := [], sub_title := Json.str "" } = 0 :=
  ⟨refresh_degrade_helper
      { rows := [[Json.obj [("name", Json.str "A")]]], sub_title := Json.str "0xA" }
      (.transportError "ConnectTimeout" "timed out") rfl,
   rfl, rfl⟩

/-- C8 (amended): when a refresh cycle's fetch fails, the failure is surfaced
to the user only implicitly — no exception reaches the caller and the
display is rebuilt as an empty list (zero cards, empty subtitle) regardless
of the previously shown screen; in particular the outcome is independent of
the previous display state. -/
theorem refresh_failure_clears_display (prev1 prev2 : Display) (r : HttpResult)
    (h : failureClass r = true) :
    Dashboard.refresh_widgets prev1 r = some { rows := [], sub_title := Json.str "" }
    ∧ Dashboard.refresh_widgets prev2 r = Dashboard.refresh_widgets prev1 r :=
  ⟨refresh_degrade_helper prev1 r h,
   (refresh_degrade_helper prev2 r h).trans (refresh_degrade_helper prev1 r h).symm⟩

/-- Witness for `refresh_failure_clears_display` at two different previous
screens and a concrete transport failure. -/
theorem refresh_failure_clears_display_witness :
    failureClass (.transportError "ReadTimeout" "timed out") = true ∧
    (Dashboard.refresh_widgets
        { rows := [[Json.obj [("name", Json.str "A")], Json.obj []]],
          sub_title := Json.str "0xA" }
        (.transportError "ReadTimeout" "timed out")
      = some { rows := [], sub_title := Json.str "" }
    ∧ Dashboard.refresh_widgets { rows := [], sub_title := Json.null }
        (.transportError "ReadTimeout" "timed out")
      = Dashboard.refresh_widgets
          { rows := [[Json.obj [("name", Json.str "A")], Json.obj []]],
            sub_title := Json.str "0xA" }
          (.transportError "ReadTimeout" "timed out")) :=
  ⟨rfl,
   refresh_failure_clears_display
     { rows := [[Json.obj [("name", Json.str "A")], Json.obj []]],
       sub_title := Json.str "0xA" }
     { rows := [], sub_title := Json.null }
     (.transportError "ReadTimeout" "timed out") rfl⟩

-- ───────────────────────────────────────────────────────────────────────────
-- Countdown lemmas
-- ───────────────────────────────────────────────────────────────────────────

/-- Under the lower clamp, Python's toward-zero truncation agrees with the
floor. -/
theorem max0_pyInt_eq_floor (q : ℚ) : max 0 (pyInt q) = max 0 ⌊q⌋ := by
  unfold pyInt
  split
  · rfl
  · rename_i hq
    have hq' : q ≤ 0 := le_of_not_le hq
    have h1 : ⌈q⌉ ≤ 0 := by
      have := Int.ceil_le (α := ℚ) (z := 0) (a := q)
      exact this.mpr (by exact_mod_cast hq')
    have h2 : ⌊q⌋ ≤ 0 := Int.floor_nonpos hq'
    omega

/-- C6 (confirmed): the 1-second tick writes
`max(0, int(next_refresh_epoch - now))` to the footer; with the deadline
fixed (no refresh in between) the written value is non-increasing in the
current time; it is never negative and is exactly 0 from the deadline
onwards; and completing a refresh at time `v` resets the countdown to
`REFRESH_EVERY = 60` and records `v + 60` as the next deadline. -/
theorem countdown_tick_and_reset (s : TimerState) (t t1 t2 u v : ℚ)
    (h12 : t1 ≤ t2) (hu : s.next_refresh_epoch ≤ u) :
    ((timerStep s (.tick t)).remaining = max 0 (pyInt (s.next_refresh_epoch - t)))
    ∧ ((timerStep s (.tick t2)).remaining ≤ (timerStep s (.tick t1)).remaining)
    ∧ (0 ≤ (timerStep s (.tick t)).remaining)
    ∧ ((timerStep s (.tick u)).remaining = 0)
    ∧ ((timerStep s (.refreshDone v)).remaining = REFRESH_EVERY)
    ∧ ((timerStep s (.refreshDone v)).next_refresh_epoch = v + (REFRESH_EVERY : ℚ)) := by
  refine ⟨rfl, ?_, le_max_left 0 _, ?_, rfl, rfl⟩
  · show max 0 (pyInt (s.next_refresh_epoch - t2))
        ≤ max 0 (pyInt (s.next_refresh_epoch - t1))
    rw [max0_pyInt_eq_floor, max0_pyInt_eq_floor]
    have hf : ⌊s.next_refresh_epoch - t2⌋ ≤ ⌊s.next_refresh_epoch - t1⌋ :=
      Int.floor_le_floor (by linarith)
    omega
  · show max 0 (pyInt (s.next_refresh_epoch - u)) = 0
    rw [max0_pyInt_eq_floor]
    have hf : ⌊s.next_refresh_epoch - u⌋ ≤ 0 := Int.floor_nonpos (by linarith)
    omega

/-- Witness for `countdown_tick_and_reset` at a concrete state and times. -/
theorem countdown_tick_and_reset_witness :
    ((1 : ℚ) ≤ 2 ∧ TimerState.next_refresh_epoch ⟨60, 60⟩ ≤ 60) ∧
    (((timerStep ⟨60, 60⟩ (.tick 1)).remaining = max 0 (pyInt (TimerState.next_refresh_epoch ⟨60, 60⟩ - 1)))
      ∧ ((timerStep ⟨60, 60⟩ (.tick 2)).remaining ≤ (timerStep ⟨60, 60⟩ (.tick 1)).remaining)
      ∧ (0 ≤ (timerStep ⟨60, 60⟩ (.tick 1)).remaining)
      ∧ ((timerStep ⟨60, 60⟩ (.tick 60)).remaining = 0)
      ∧ ((timerStep ⟨60, 60⟩ (.refreshDone 100)).remaining = REFRESH_EVERY)
      ∧ ((timerStep ⟨60, 60⟩ (.refreshDone 100)).next_refresh_epoch = 100 + (REFRESH_EVERY : ℚ))) :=
  ⟨⟨by norm_num, by norm_num⟩,
   countdown_tick_and_reset ⟨60, 60⟩ 1 1 2 60 100 (by norm_num) (by norm_num)⟩

/-- Helper invariant: from any state with the countdown in range and the
deadline at most `REFRESH_EVERY` ahead of the clock, any chronological event
sequence keeps the countdown in `[0, REFRESH_EVERY]`. -/
theorem timer_inv (es : List TimerEvent) :
    ∀ (t : ℚ) (s : TimerState),
      0 ≤ s.remaining → s.remaining ≤ REFRESH_EVERY →
      s.next_refresh_epoch ≤ t + (REFRESH_EVERY : ℚ) →
      chronological t es = true →
      0 ≤ (es.foldl timerStep s).remaining ∧
      (es.foldl timerStep s).remaining ≤ REFRESH_EVERY := by
  induction es with
  | nil =>
    intro t s h0 h60 _ _
    exact ⟨h0, h60⟩
  | cons e es ih =>
    intro t s h0 h60 hnext hc
    simp only [chronological, Bool.and_eq_true, decide_eq_true_eq] at hc
    obtain ⟨hte, hc'⟩ := hc
    rw [List.foldl_cons]
    cases e with
    | tick te =>
      simp only [eventTime] at hte hc'
      apply ih te
      · exact le_max_left 0 _
      · show max 0 (pyInt (s.next_refresh_epoch - te)) ≤ REFRESH_EVERY
        rw [max0_pyInt_eq_floor]
        have hle : s.next_refresh_epoch - te ≤ ((REFRESH_EVERY : Int) : ℚ) := by
          simp only [REFRESH_EVERY] at hnext ⊢
          push_cast at hnext ⊢
          linarith
        have hf : ⌊s.next_refresh_epoch - te⌋ ≤ REFRESH_EVERY := by
          have := Int.floor_le_floor hle
          rwa [Int.floor_intCast] at this
        simp only [REFRESH_EVERY] at hf ⊢
        omega
      · show s.next_refresh_epoch ≤ te + (REFRESH_EVERY : ℚ)
        linarith
      · exact hc'
    | refreshDone tr =>
      simp only [eventTime] at hte hc'
      apply ih tr
      · show (0 : Int) ≤ REFRESH_EVERY
        simp [REFRESH_EVERY]
      · exact le_refl _
      · show tr + (REFRESH_EVERY : ℚ) ≤ tr + (REFRESH_EVERY : ℚ)
        exact le_refl _
      · exact hc'

/-- C10 (confirmed): starting from initialization at time `t0` (deadline
`t0 + 60`, countdown 60), every chronological sequence of per-second ticks
and refresh completions leaves the footer countdown an integer within
`[0, REFRESH_EVERY] = [0, 60]`; each write (initialization, clamped tick,
post-refresh reset) stays in range. -/
theorem countdown_range_invariant (t0 : ℚ) (es : List TimerEvent)
    (hc : chronological t0 es = true) :
    0 ≤ (runTimer t0 es).remaining ∧ (runTimer t0 es).remaining ≤ REFRESH_EVERY := by
  apply timer_inv es t0 (initTimerState t0)
  · show (0 : Int) ≤ REFRESH_EVERY
    simp [REFRESH_EVERY]
  · exact le_refl _
  · show t0 + (REFRESH_EVERY : ℚ) ≤ t0 + (REFRESH_EVERY : ℚ)
    exact le_refl _
  · exact hc

/-- Witness for `countdown_range_invariant` on a concrete chronological
trace crossing a deadline and a refresh. -/
theorem countdown_range_invariant_witness :
    chronological 0 [.tick 1, .tick 59, .tick 61, .refreshDone 62, .tick 63] = true ∧
    (0 ≤ (runTimer 0 [.tick 1, .tick 59, .tick 61, .refreshDone 62, .tick 63]).remaining ∧
      (runTimer 0 [.tick 1, .tick 59, .tick 61, .refreshDone 62, .tick 63]).remaining
        ≤ REFRESH_EVERY) :=
  ⟨by norm_num [chronological, eventTime],
   countdown_range_invariant 0 [.tick 1, .tick 59, .tick 61, .refreshDone 62, .tick 63]
     (by norm_num [chronological, eventTime])⟩

